import Mathlib

set_option maxHeartbeats 1000000

/-!
Verification development for the resilient execution layer of the
solana-toolkit repository: the connection manager with its retry
executor and health monitoring (src/core.js), and the transaction
manager with its lifecycle orchestration (src/transaction.js).
State and effects of the JavaScript source are rendered as explicit
pure functions; each remote call outcome is an input parameter.
-/

namespace SolanaToolkit

instance {ε α : Type} [DecidableEq ε] [DecidableEq α] : DecidableEq (Except ε α) := fun a b =>
  match a, b with
  | .ok x, .ok y =>
      if h : x = y then isTrue (by rw [h]) else isFalse (by intro hc; cases hc; exact h rfl)
  | .error x, .error y =>
      if h : x = y then isTrue (by rw [h]) else isFalse (by intro hc; cases hc; exact h rfl)
  | .ok _, .error _ => isFalse (by intro hc; cases hc)
  | .error _, .ok _ => isFalse (by intro hc; cases hc)

/-- Errors thrown in the JavaScript source: either a structured
SolanaToolkitError with message, code and a context map (rendered as a
list of key and value strings), or a plain Error with a message. -/
inductive JsError where
  | toolkit (message : String) (code : String) (context : List (String × String))
  | generic (message : String)
deriving DecidableEq, Repr

/-- The message field of an error, as read by the wrapping code. -/
def JsError.message : JsError → String
  | .toolkit m _ _ => m
  | .generic m => m

/-- The code field of an error, none for a plain Error. -/
def JsError.codeOf : JsError → Option String
  | .toolkit _ c _ => some c
  | .generic _ => none

/-- The error built at core.js line 72: the unhealthy gate short circuit. -/
def unhealthyError (attempt maxRetries : Nat) : JsError :=
  .toolkit "Connection is unhealthy" "UNHEALTHY_CONNECTION"
    [("attempt", toString attempt), ("maxRetries", toString maxRetries)]

/-- The error built at core.js line 92 after the loop: wraps the final
underlying failure message and records the attempt bound. The source
reads lastError.message; lastError is none only when maxRetries is 0,
a case outside every claim. -/
def operationFailedError (maxRetries : Nat) (lastError : Option JsError) : JsError :=
  .toolkit
    ("Operation failed after " ++ toString maxRetries ++ " attempts: "
      ++ ((lastError.map JsError.message).getD "undefined"))
    "OPERATION_FAILED"
    [("maxRetries", toString maxRetries),
     ("lastError", (lastError.map JsError.message).getD "undefined")]

/-- One loop iteration of executeWithRetry as observed from outside:
either the unhealthy gate short circuited the attempt (the operation was
not invoked), or the operation was invoked with the given outcome. -/
inductive AttemptEvent (α : Type) where
  | unhealthySkip
  | invoked (outcome : Except JsError α)
deriving DecidableEq, Repr

/-- True exactly on events where the operation was invoked. -/
def AttemptEvent.isInvoked {α : Type} : AttemptEvent α → Bool
  | .unhealthySkip => false
  | .invoked _ => true

/-- Full observable behaviour of one executeWithRetry call: the attempt
events in order, the backoff sleeps performed between attempts in order,
and the returned value or thrown error. -/
structure RetryTrace (α : Type) where
  attempts : List (AttemptEvent α)
  delays : List Nat
  result : Except JsError α
deriving DecidableEq, Repr

/-- The loop body of ConnectionManager.executeWithRetry (core.js lines
69 to 90), recursing on the number of remaining attempts. `healthy k`
is the value of this.isHealthy read at the start of attempt k, and
`op j` the outcome of the j-th invocation of the operation. `attempt`
is the 1-indexed loop counter, `nextInv` the index the next invocation
would get, `lastErr` the lastError variable. -/
def retryGo {α : Type} (healthy : Nat → Bool) (op : Nat → Except JsError α)
    (retryDelay maxRetries : Nat) :
    Nat → Nat → Nat → Option JsError → RetryTrace α
  | 0, _, _, lastErr =>
      ⟨[], [], Except.error (operationFailedError maxRetries lastErr)⟩
  | fuel + 1, attempt, nextInv, _ =>
      if healthy attempt then
        match op nextInv with
        | Except.ok v => ⟨[AttemptEvent.invoked (Except.ok v)], [], Except.ok v⟩
        | Except.error e =>
            if attempt = maxRetries then
              ⟨[AttemptEvent.invoked (Except.error e)], [],
               Except.error (operationFailedError maxRetries (some e))⟩
            else
              ⟨AttemptEvent.invoked (Except.error e) ::
                 (retryGo healthy op retryDelay maxRetries fuel (attempt + 1) (nextInv + 1) (some e)).attempts,
               retryDelay * 2 ^ (attempt - 1) ::
                 (retryGo healthy op retryDelay maxRetries fuel (attempt + 1) (nextInv + 1) (some e)).delays,
               (retryGo healthy op retryDelay maxRetries fuel (attempt + 1) (nextInv + 1) (some e)).result⟩
      else
        if attempt = maxRetries then
          ⟨[AttemptEvent.unhealthySkip], [],
           Except.error (operationFailedError maxRetries (some (unhealthyError attempt maxRetries)))⟩
        else
          ⟨AttemptEvent.unhealthySkip ::
             (retryGo healthy op retryDelay maxRetries fuel (attempt + 1) nextInv
               (some (unhealthyError attempt maxRetries))).attempts,
           retryDelay * 2 ^ (attempt - 1) ::
             (retryGo healthy op retryDelay maxRetries fuel (attempt + 1) nextInv
               (some (unhealthyError attempt maxRetries))).delays,
           (retryGo healthy op retryDelay maxRetries fuel (attempt + 1) nextInv
             (some (unhealthyError attempt maxRetries))).result⟩

/-- ConnectionManager.executeWithRetry (core.js lines 66 to 97): the
loop runs attempts 1 through maxRetries. -/
def executeWithRetry {α : Type} (healthy : Nat → Bool) (op : Nat → Except JsError α)
    (retryDelay maxRetries : Nat) : RetryTrace α :=
  retryGo healthy op retryDelay maxRetries maxRetries 1 1 none

/-- Number of times the supplied operation was actually invoked. -/
def invokedCount {α : Type} (t : RetryTrace α) : Nat :=
  (t.attempts.filter AttemptEvent.isInvoked).length

theorem retryGo_step_ok {α : Type} {healthy : Nat → Bool} {op : Nat → Except JsError α}
    {d m fuel attempt nextInv : Nat} {lastErr : Option JsError} {v : α}
    (hh : healthy attempt = true) (hop : op nextInv = Except.ok v) :
    retryGo healthy op d m (fuel + 1) attempt nextInv lastErr =
      ⟨[AttemptEvent.invoked (Except.ok v)], [], Except.ok v⟩ := by
  simp [retryGo, hh, hop]

theorem retryGo_step_fail_last {α : Type} {healthy : Nat → Bool} {op : Nat → Except JsError α}
    {d m fuel attempt nextInv : Nat} {lastErr : Option JsError} {e : JsError}
    (hh : healthy attempt = true) (hop : op nextInv = Except.error e) (hm : attempt = m) :
    retryGo healthy op d m (fuel + 1) attempt nextInv lastErr =
      ⟨[AttemptEvent.invoked (Except.error e)], [],
       Except.error (operationFailedError m (some e))⟩ := by
  subst hm
  simp [retryGo, hh, hop]

theorem retryGo_step_fail_cont {α : Type} {healthy : Nat → Bool} {op : Nat → Except JsError α}
    {d m fuel attempt nextInv : Nat} {lastErr : Option JsError} {e : JsError}
    (hh : healthy attempt = true) (hop : op nextInv = Except.error e) (hm : attempt ≠ m) :
    retryGo healthy op d m (fuel + 1) attempt nextInv lastErr =
      ⟨AttemptEvent.invoked (Except.error e) ::
         (retryGo healthy op d m fuel (attempt + 1) (nextInv + 1) (some e)).attempts,
       d * 2 ^ (attempt - 1) ::
         (retryGo healthy op d m fuel (attempt + 1) (nextInv + 1) (some e)).delays,
       (retryGo healthy op d m fuel (attempt + 1) (nextInv + 1) (some e)).result⟩ := by
  simp [retryGo, hh, hop, hm]

theorem retryGo_step_unhealthy_last {α : Type} {healthy : Nat → Bool} {op : Nat → Except JsError α}
    {d m fuel attempt nextInv : Nat} {lastErr : Option JsError}
    (hh : healthy attempt = false) (hm : attempt = m) :
    retryGo healthy op d m (fuel + 1) attempt nextInv lastErr =
      ⟨[AttemptEvent.unhealthySkip], [],
       Except.error (operationFailedError m (some (unhealthyError attempt m)))⟩ := by
  subst hm
  simp [retryGo, hh]

theorem retryGo_step_unhealthy_cont {α : Type} {healthy : Nat → Bool} {op : Nat → Except JsError α}
    {d m fuel attempt nextInv : Nat} {lastErr : Option JsError}
    (hh : healthy attempt = false) (hm : attempt ≠ m) :
    retryGo healthy op d m (fuel + 1) attempt nextInv lastErr =
      ⟨AttemptEvent.unhealthySkip ::
         (retryGo healthy op d m fuel (attempt + 1) nextInv
           (some (unhealthyError attempt m))).attempts,
       d * 2 ^ (attempt - 1) ::
         (retryGo healthy op d m fuel (attempt + 1) nextInv
           (some (unhealthyError attempt m))).delays,
       (retryGo healthy op d m fuel (attempt + 1) nextInv
         (some (unhealthyError attempt m))).result⟩ := by
  simp [retryGo, hh, hm]

/-- The retry loop when the flag is healthy on every attempt and the
operation fails on every invocation: one invoked failing event per
remaining attempt, and the wrapped final error. -/
theorem retryGo_allFail {α : Type} (err : Nat → JsError) (d m : Nat) :
    ∀ f attempt lastErr, 1 ≤ attempt → attempt + f = m →
      (retryGo (fun _ => true) (fun i => (Except.error (err i) : Except JsError α)) d m
          (f + 1) attempt attempt lastErr).attempts.length = f + 1 ∧
      (∀ ev ∈ (retryGo (fun _ => true) (fun i => (Except.error (err i) : Except JsError α)) d m
          (f + 1) attempt attempt lastErr).attempts, ev.isInvoked = true) ∧
      (retryGo (fun _ => true) (fun i => (Except.error (err i) : Except JsError α)) d m
          (f + 1) attempt attempt lastErr).result =
        Except.error (operationFailedError m (some (err m))) := by
  intro f
  induction f with
  | zero =>
      intro attempt lastErr h1 h2
      have hm : attempt = m := by omega
      subst hm
      rw [retryGo_step_fail_last rfl rfl rfl]
      simp [AttemptEvent.isInvoked]
  | succ f ih =>
      intro attempt lastErr h1 h2
      have hm : attempt ≠ m := by omega
      have hrec := ih (attempt + 1) (some (err attempt)) (by omega) (by omega)
      rw [retryGo_step_fail_cont rfl rfl hm]
      refine ⟨by simpa using hrec.1, ?_, by simpa using hrec.2.2⟩
      intro ev hev
      rcases List.mem_cons.mp hev with h | h
      · subst h; rfl
      · exact hrec.2.1 ev h

/-- The retry loop when the flag is healthy on every attempt and the
operation first succeeds on invocation k: the loop stops right after the
successful invocation with the success value, having run one invoked
event per attempt up to k. -/
theorem retryGo_succeedAt {α : Type} (err : Nat → JsError) (v : α) (k d m : Nat) :
    ∀ g attempt lastErr f, 1 ≤ attempt → attempt + g = k → g < f + 1 → attempt + f = m →
      (retryGo (fun _ => true)
          (fun i => if i < k then (Except.error (err i) : Except JsError α) else Except.ok v) d m
          (f + 1) attempt attempt lastErr).attempts.length = g + 1 ∧
      (∀ ev ∈ (retryGo (fun _ => true)
          (fun i => if i < k then (Except.error (err i) : Except JsError α) else Except.ok v) d m
          (f + 1) attempt attempt lastErr).attempts, ev.isInvoked = true) ∧
      (retryGo (fun _ => true)
          (fun i => if i < k then (Except.error (err i) : Except JsError α) else Except.ok v) d m
          (f + 1) attempt attempt lastErr).result = Except.ok v := by
  intro g
  induction g with
  | zero =>
      intro attempt lastErr f h1 h2 h3 h4
      have hk : attempt = k := by omega
      have hop : (fun i => if i < k then (Except.error (err i) : Except JsError α) else Except.ok v)
          attempt = Except.ok v := by
        simp only [hk]
        simp
      rw [retryGo_step_ok rfl hop]
      simp [AttemptEvent.isInvoked]
  | succ g ih =>
      intro attempt lastErr f h1 h2 h3 h4
      have hak : attempt < k := by omega
      have hop : (fun i => if i < k then (Except.error (err i) : Except JsError α) else Except.ok v)
          attempt = Except.error (err attempt) := by
        simp [hak]
      have hm : attempt ≠ m := by omega
      obtain ⟨f', rfl⟩ : ∃ f', f = f' + 1 := ⟨f - 1, by omega⟩
      have hrec := ih (attempt + 1) (some (err attempt)) f' (by omega) (by omega) (by omega) (by omega)
      rw [retryGo_step_fail_cont rfl hop hm]
      refine ⟨by simpa using hrec.1, ?_, by simpa using hrec.2.2⟩
      intro ev hev
      rcases List.mem_cons.mp hev with h | h
      · subst h; rfl
      · exact hrec.2.1 ev h

/-- The retry loop when the flag is unhealthy on every attempt: every
attempt short circuits without invoking the operation, and the final
error wraps the unhealthy condition. -/
theorem retryGo_allUnhealthy {α : Type} (op : Nat → Except JsError α) (d m : Nat) :
    ∀ f attempt nextInv lastErr, 1 ≤ attempt → attempt + f = m →
      (retryGo (fun _ => false) op d m (f + 1) attempt nextInv lastErr).attempts =
        List.replicate (f + 1) AttemptEvent.unhealthySkip ∧
      (retryGo (fun _ => false) op d m (f + 1) attempt nextInv lastErr).result =
        Except.error (operationFailedError m (some (unhealthyError m m))) := by
  intro f
  induction f with
  | zero =>
      intro attempt nextInv lastErr h1 h2
      have hm : attempt = m := by omega
      subst hm
      rw [retryGo_step_unhealthy_last rfl rfl]
      simp [List.replicate]
  | succ f ih =>
      intro attempt nextInv lastErr h1 h2
      have hm : attempt ≠ m := by omega
      have hrec := ih (attempt + 1) nextInv (some (unhealthyError attempt m)) (by omega) (by omega)
      rw [retryGo_step_unhealthy_cont rfl hm]
      refine ⟨?_, by simpa using hrec.2⟩
      rw [List.replicate_succ]
      exact congrArg _ hrec.1

/-- General shape of the retry loop for any health history and any
operation: at least one attempt happens, there is exactly one backoff
sleep per non-final attempt, the sleep after attempt k lasts
retryDelay times 2 to the power k minus 1, and an attempt short
circuits exactly when the health flag read at its start is false. -/
theorem retryGo_shape {α : Type} (healthy : Nat → Bool) (op : Nat → Except JsError α) (d m : Nat) :
    ∀ f attempt nextInv lastErr, 1 ≤ attempt → attempt + f = m →
      1 ≤ (retryGo healthy op d m (f + 1) attempt nextInv lastErr).attempts.length ∧
      (retryGo healthy op d m (f + 1) attempt nextInv lastErr).delays.length =
        (retryGo healthy op d m (f + 1) attempt nextInv lastErr).attempts.length - 1 ∧
      (∀ i, i < (retryGo healthy op d m (f + 1) attempt nextInv lastErr).delays.length →
        (retryGo healthy op d m (f + 1) attempt nextInv lastErr).delays.getD i 0 =
          d * 2 ^ (attempt - 1 + i)) ∧
      (∀ i, i < (retryGo healthy op d m (f + 1) attempt nextInv lastErr).attempts.length →
        ((retryGo healthy op d m (f + 1) attempt nextInv lastErr).attempts.getD i
            AttemptEvent.unhealthySkip = AttemptEvent.unhealthySkip ↔
          healthy (attempt + i) = false)) := by
  intro f
  induction f with
  | zero =>
      intro attempt nextInv lastErr h1 h2
      have hm : attempt = m := by omega
      subst hm
      cases hh : healthy attempt with
      | false =>
          rw [retryGo_step_unhealthy_last hh rfl]
          refine ⟨by simp, by simp, by simp, ?_⟩
          intro i hi
          simp at hi
          subst hi
          simp [hh]
      | true =>
          cases hop : op nextInv with
          | ok v =>
              rw [retryGo_step_ok hh hop]
              refine ⟨by simp, by simp, by simp, ?_⟩
              intro i hi
              simp at hi
              subst hi
              simp [hh, AttemptEvent.unhealthySkip]
          | error e =>
              rw [retryGo_step_fail_last hh hop rfl]
              refine ⟨by simp, by simp, by simp, ?_⟩
              intro i hi
              simp at hi
              subst hi
              simp [hh]
  | succ f ih =>
      intro attempt nextInv lastErr h1 h2
      have hm : attempt ≠ m := by omega
      cases hh : healthy attempt with
      | false =>
          have hrec := ih (attempt + 1) nextInv (some (unhealthyError attempt m)) (by omega) (by omega)
          rw [retryGo_step_unhealthy_cont hh hm]
          obtain ⟨hlen, hdlen, hdval, hskip⟩ := hrec
          refine ⟨by simp, by simp [hdlen]; omega, ?_, ?_⟩
          · intro i hi
            cases i with
            | zero => simp
            | succ j =>
                simp only [List.getD_cons_succ]
                have hj : j < (retryGo healthy op d m (f + 1) (attempt + 1) nextInv
                    (some (unhealthyError attempt m))).delays.length := by
                  simp at hi
                  omega
                rw [hdval j hj]
                congr 1
                congr 1
                omega
          · intro i hi
            cases i with
            | zero => simp [hh]
            | succ j =>
                simp only [List.getD_cons_succ]
                have hj : j < (retryGo healthy op d m (f + 1) (attempt + 1) nextInv
                    (some (unhealthyError attempt m))).attempts.length := by
                  simp at hi
                  omega
                rw [hskip j hj]
                have hadd : attempt + 1 + j = attempt + (j + 1) := by omega
                rw [hadd]
      | true =>
          cases hop : op nextInv with
          | ok v =>
              rw [retryGo_step_ok hh hop]
              refine ⟨by simp, by simp, by simp, ?_⟩
              intro i hi
              simp at hi
              subst hi
              simp [hh, AttemptEvent.isInvoked]
          | error e =>
              have hrec := ih (attempt + 1) (nextInv + 1) (some e) (by omega) (by omega)
              rw [retryGo_step_fail_cont hh hop hm]
              obtain ⟨hlen, hdlen, hdval, hskip⟩ := hrec
              refine ⟨by simp, by simp [hdlen]; omega, ?_, ?_⟩
              · intro i hi
                cases i with
                | zero => simp
                | succ j =>
                    simp only [List.getD_cons_succ]
                    have hj : j < (retryGo healthy op d m (f + 1) (attempt + 1) (nextInv + 1)
                        (some e)).delays.length := by
                      simp at hi
                      omega
                    rw [hdval j hj]
                    congr 1
                    congr 1
                    omega
              · intro i hi
                cases i with
                | zero => simp [hh]
                | succ j =>
                    simp only [List.getD_cons_succ]
                    have hj : j < (retryGo healthy op d m (f + 1) (attempt + 1) (nextInv + 1)
                        (some e)).attempts.length := by
                      simp at hi
                      omega
                    rw [hskip j hj]
                    have hadd : attempt + 1 + j = attempt + (j + 1) := by omega
                    rw [hadd]

theorem invokedCount_eq_length {α : Type} (t : RetryTrace α)
    (h : ∀ ev ∈ t.attempts, ev.isInvoked = true) : invokedCount t = t.attempts.length := by
  unfold invokedCount
  rw [List.filter_eq_self.mpr h]

theorem filter_isInvoked_replicate {α : Type} (n : Nat) :
    (List.replicate n (AttemptEvent.unhealthySkip : AttemptEvent α)).filter
      AttemptEvent.isInvoked = [] := by
  induction n with
  | zero => rfl
  | succ n ih =>
      rw [List.replicate_succ, List.filter_cons]
      simp [AttemptEvent.isInvoked, ih]

/-- C1: for maxAttempts n at least 1 with a healthy connection, an
operation failing on every invocation is invoked exactly n times, one
invocation per attempt, and the raised wrapped error records the
attempt count n in its context and carries the final underlying failure
message; an operation first succeeding on invocation k at most n makes
the call return that success after exactly k invocations in k attempts,
with no further attempts and no backoff sleep after the success. -/
theorem executeWithRetry_attempt_count_semantics {α : Type} (n k d : Nat) (v : α)
    (err : Nat → JsError) (hn : 1 ≤ n) (hk1 : 1 ≤ k) (hkn : k ≤ n) :
    (invokedCount (executeWithRetry (fun _ => true)
        (fun i => (Except.error (err i) : Except JsError α)) d n) = n ∧
     (executeWithRetry (fun _ => true)
        (fun i => (Except.error (err i) : Except JsError α)) d n).attempts.length = n ∧
     (executeWithRetry (fun _ => true)
        (fun i => (Except.error (err i) : Except JsError α)) d n).result =
       Except.error (operationFailedError n (some (err n)))) ∧
    (invokedCount (executeWithRetry (fun _ => true)
        (fun i => if i < k then (Except.error (err i) : Except JsError α) else Except.ok v) d n)
        = k ∧
     (executeWithRetry (fun _ => true)
        (fun i => if i < k then (Except.error (err i) : Except JsError α) else Except.ok v) d n).attempts.length = k ∧
     (executeWithRetry (fun _ => true)
        (fun i => if i < k then (Except.error (err i) : Except JsError α) else Except.ok v) d n).result = Except.ok v ∧
     (executeWithRetry (fun _ => true)
        (fun i => if i < k then (Except.error (err i) : Except JsError α) else Except.ok v) d n).delays.length = k - 1) := by
  obtain ⟨f, rfl⟩ : ∃ f, n = f + 1 := ⟨n - 1, by omega⟩
  simp only [executeWithRetry]
  have hA := @retryGo_allFail α err d (f + 1) f 1 none (by omega) (by omega)
  have hS := @retryGo_succeedAt α err v k d (f + 1) (k - 1) 1 none f
    (by omega) (by omega) (by omega) (by omega)
  have hSh := retryGo_shape (fun _ => true)
    (fun i => if i < k then (Except.error (err i) : Except JsError α) else Except.ok v)
    d (f + 1) f 1 1 none (by omega) (by omega)
  refine ⟨⟨?_, hA.1, hA.2.2⟩, ?_, ?_, hS.2.2, ?_⟩
  · rw [invokedCount_eq_length _ hA.2.1, hA.1]
  · rw [invokedCount_eq_length _ hS.2.1, hS.1]
    omega
  · rw [hS.1]
    omega
  · rw [hSh.2.1, hS.1]
    omega

/-- Witness for C1 at n = 3, k = 2, d = 7. -/
theorem executeWithRetry_attempt_count_semantics_witness :
    (invokedCount (executeWithRetry (fun _ => true)
        (fun i => (Except.error (JsError.generic (toString i)) : Except JsError Nat)) 7 3) = 3 ∧
     (executeWithRetry (fun _ => true)
        (fun i => (Except.error (JsError.generic (toString i)) : Except JsError Nat)) 7 3).attempts.length = 3 ∧
     (executeWithRetry (fun _ => true)
        (fun i => (Except.error (JsError.generic (toString i)) : Except JsError Nat)) 7 3).result =
       Except.error (operationFailedError 3 (some (JsError.generic (toString 3))))) ∧
    (invokedCount (executeWithRetry (fun _ => true)
        (fun i => if i < 2 then (Except.error (JsError.generic (toString i)) : Except JsError Nat)
          else Except.ok 0) 7 3) = 2 ∧
     (executeWithRetry (fun _ => true)
        (fun i => if i < 2 then (Except.error (JsError.generic (toString i)) : Except JsError Nat)
          else Except.ok 0) 7 3).attempts.length = 2 ∧
     (executeWithRetry (fun _ => true)
        (fun i => if i < 2 then (Except.error (JsError.generic (toString i)) : Except JsError Nat)
          else Except.ok 0) 7 3).result = Except.ok 0 ∧
     (executeWithRetry (fun _ => true)
        (fun i => if i < 2 then (Except.error (JsError.generic (toString i)) : Except JsError Nat)
          else Except.ok 0) 7 3).delays.length = 2 - 1) :=
  executeWithRetry_attempt_count_semantics 3 2 7 0 (fun i => JsError.generic (toString i))
    (by decide) (by decide) (by decide)

/-- C2: with the health flag false at the start of an attempt the
attempt short circuits without invoking the operation and still counts
toward maxAttempts: with the flag false throughout, a call with
maxAttempts n makes zero operation invocations, runs n short circuited
attempts, and fails wrapping the unhealthy connection condition; in
general an attempt is a short circuit exactly when the flag read at its
start is false. -/
theorem executeWithRetry_unhealthy_gate {α : Type} (n d : Nat) (op : Nat → Except JsError α)
    (healthy : Nat → Bool) (hn : 1 ≤ n) :
    ((executeWithRetry (fun _ => false) op d n).attempts =
        List.replicate n AttemptEvent.unhealthySkip ∧
     invokedCount (executeWithRetry (fun _ => false) op d n) = 0 ∧
     (executeWithRetry (fun _ => false) op d n).result =
        Except.error (operationFailedError n (some (unhealthyError n n)))) ∧
    (∀ i, i < (executeWithRetry healthy op d n).attempts.length →
      ((executeWithRetry healthy op d n).attempts.getD i AttemptEvent.unhealthySkip =
          AttemptEvent.unhealthySkip ↔ healthy (i + 1) = false)) := by
  obtain ⟨f, rfl⟩ : ∃ f, n = f + 1 := ⟨n - 1, by omega⟩
  simp only [executeWithRetry]
  have hU := retryGo_allUnhealthy op d (f + 1) f 1 1 none (by omega) (by omega)
  have hSh := retryGo_shape healthy op d (f + 1) f 1 1 none (by omega) (by omega)
  refine ⟨⟨hU.1, ?_, hU.2⟩, ?_⟩
  · unfold invokedCount
    rw [hU.1, filter_isInvoked_replicate]
    rfl
  · intro i hi
    have h := hSh.2.2.2 i hi
    rwa [Nat.add_comm 1 i] at h

/-- Witness for C2 at n = 2, with a mixed health history for the
general part. -/
theorem executeWithRetry_unhealthy_gate_witness :
    ((executeWithRetry (fun _ => false) (fun _ => (Except.ok 5 : Except JsError Nat)) 9 2).attempts =
        List.replicate 2 AttemptEvent.unhealthySkip ∧
     invokedCount (executeWithRetry (fun _ => false)
        (fun _ => (Except.ok 5 : Except JsError Nat)) 9 2) = 0 ∧
     (executeWithRetry (fun _ => false) (fun _ => (Except.ok 5 : Except JsError Nat)) 9 2).result =
        Except.error (operationFailedError 2 (some (unhealthyError 2 2)))) ∧
    (∀ i, i < (executeWithRetry (fun a => a % 2 == 0)
        (fun _ => (Except.ok 5 : Except JsError Nat)) 9 2).attempts.length →
      ((executeWithRetry (fun a => a % 2 == 0)
          (fun _ => (Except.ok 5 : Except JsError Nat)) 9 2).attempts.getD i
            AttemptEvent.unhealthySkip = AttemptEvent.unhealthySkip ↔
        (fun a => a % 2 == 0) (i + 1) = false)) :=
  executeWithRetry_unhealthy_gate 2 9 (fun _ => (Except.ok 5 : Except JsError Nat))
    (fun a => a % 2 == 0) (by decide)

/-- C8: for every failed non-final attempt k the executor sleeps
exactly baseDelay times 2 to the power k minus 1 before attempt k plus
1, and there is no sleep after the final attempt or after a success:
the number of sleeps is exactly one less than the number of attempts. -/
theorem executeWithRetry_backoff {α : Type} (n d : Nat) (op : Nat → Except JsError α)
    (healthy : Nat → Bool) (hn : 1 ≤ n) :
    (executeWithRetry healthy op d n).delays.length =
      (executeWithRetry healthy op d n).attempts.length - 1 ∧
    (∀ i, i < (executeWithRetry healthy op d n).delays.length →
      (executeWithRetry healthy op d n).delays.getD i 0 = d * 2 ^ i) := by
  obtain ⟨f, rfl⟩ : ∃ f, n = f + 1 := ⟨n - 1, by omega⟩
  simp only [executeWithRetry]
  have hSh := retryGo_shape healthy op d (f + 1) f 1 1 none (by omega) (by omega)
  refine ⟨hSh.2.1, ?_⟩
  intro i hi
  have h := hSh.2.2.1 i hi
  simpa using h

/-- Witness for C8 at n = 3, d = 5, an always failing operation. -/
theorem executeWithRetry_backoff_witness :
    (executeWithRetry (fun _ => true)
        (fun _ => (Except.error (JsError.generic "boom") : Except JsError Nat)) 5 3).delays.length =
      (executeWithRetry (fun _ => true)
        (fun _ => (Except.error (JsError.generic "boom") : Except JsError Nat)) 5 3).attempts.length - 1 ∧
    (∀ i, i < (executeWithRetry (fun _ => true)
        (fun _ => (Except.error (JsError.generic "boom") : Except JsError Nat)) 5 3).delays.length →
      (executeWithRetry (fun _ => true)
          (fun _ => (Except.error (JsError.generic "boom") : Except JsError Nat)) 5 3).delays.getD i 0 =
        5 * 2 ^ i) :=
  executeWithRetry_backoff 3 5
    (fun _ => (Except.error (JsError.generic "boom") : Except JsError Nat))
    (fun _ => true) (by decide)

/-- The account view returned by AccountManager.getAccountInfo
(account.js lines 80 to 86); raw account data rendered as bytes. -/
structure AccountInfoView where
  lamports : Nat
  owner : String
  executable : Bool
  rentEpoch : Nat
  data : List Nat
deriving DecidableEq, Repr

/-- The error built at account.js line 73 when the queried account is
absent. -/
def accountNotFoundError (publicKey : String) : JsError :=
  .toolkit "Account not found" "ACCOUNT_NOT_FOUND" [("publicKey", publicKey)]

/-- The operation closure of AccountManager.getAccountInfo (account.js
lines 69 to 87): given the remote reply for the queried key, either the
parsed view or the thrown ACCOUNT_NOT_FOUND error. -/
def getAccountInfoOperation (publicKey : String) (remote : Option AccountInfoView) :
    Except JsError AccountInfoView :=
  match remote with
  | none => Except.error (accountNotFoundError publicKey)
  | some a => Except.ok a

/-- C7: refuted on the code. The retry executor catches every thrown
error alike, so a NotFound shaped failure from getAccountInfo on an
absent account is retried like a transport failure: with the default
maxRetries of 3 and a healthy connection the operation is invoked three
times, not once, and the surfaced error is the OPERATION_FAILED wrap of
the ACCOUNT_NOT_FOUND error rather than the NotFound condition after a
single invocation. -/
theorem notFound_retried_not_surfaced_once :
    invokedCount (executeWithRetry (fun _ => true)
      (fun _ => getAccountInfoOperation "pk1" none) 1000 3) = 3 ∧
    (executeWithRetry (fun _ => true)
      (fun _ => getAccountInfoOperation "pk1" none) 1000 3).result =
      Except.error (operationFailedError 3 (some (accountNotFoundError "pk1"))) ∧
    ¬ (executeWithRetry (fun _ => true)
        (fun _ => getAccountInfoOperation "pk1" none) 1000 3).result =
      Except.error (accountNotFoundError "pk1") := by
  refine ⟨by decide, by decide, by decide⟩

/-- Mutable state of a ConnectionManager instance (core.js lines 13 to
24) together with the set of live probe timers: startHealthCheck calls
setInterval and never stores or clears the handle, so timer handles
only accumulate; each handle and each connection object is identified
by a fresh number. -/
structure CMState where
  endpoint : String
  commitment : String
  retryAttempts : Nat
  retryDelay : Nat
  healthCheckInterval : Nat
  isHealthy : Bool
  lastHealthCheck : Nat
  connectionGen : Nat
  intervals : List Nat
  nextTimerId : Nat
deriving DecidableEq, Repr

/-- ConnectionManager.startHealthCheck (core.js lines 46 to 64): starts
one more recurring probe timer; nothing stops earlier timers. -/
def startHealthCheck (s : CMState) : CMState :=
  { s with intervals := s.intervals ++ [s.nextTimerId], nextTimerId := s.nextTimerId + 1 }

/-- ConnectionManager.initializeConnection (core.js lines 26 to 44):
installs a fresh Connection object and starts a health check timer.
It does not touch isHealthy and does not clear old timers. -/
def initializeConnection (s : CMState) : CMState :=
  startHealthCheck { s with connectionGen := s.connectionGen + 1 }

/-- The ConnectionManager constructor (core.js lines 14 to 24). -/
def mkConnectionManager (endpoint commitment : String) (now : Nat) : CMState :=
  initializeConnection
    { endpoint := endpoint, commitment := commitment,
      retryAttempts := 3, retryDelay := 1000, healthCheckInterval := 30000,
      isHealthy := true, lastHealthCheck := now,
      connectionGen := 0, intervals := [], nextTimerId := 0 }

/-- ConnectionManager.switchNetwork (core.js lines 99 to 103): sets the
endpoint and commitment and reinitializes the connection. It neither
clears the previous probe timer nor resets isHealthy. -/
def switchNetwork (s : CMState) (newEndpoint newCommitment : String) : CMState :=
  initializeConnection { s with endpoint := newEndpoint, commitment := newCommitment }

/-- One tick of the probe timer with the given handle (the setInterval
callback, core.js lines 47 to 62): if the timer is live, a reply after
responseTime milliseconds sets isHealthy to whether the latency beat
5000 and stamps lastHealthCheck, and a thrown probe error (responseTime
none) sets isHealthy to false; a cleared timer never ticks. -/
def probeTick (s : CMState) (timerId : Nat) (responseTime : Option Nat) (now : Nat) : CMState :=
  if timerId ∈ s.intervals then
    match responseTime with
    | some t => { s with isHealthy := decide (t < 5000), lastHealthCheck := now }
    | none => { s with isHealthy := false }
  else s

/-- C3: refuted on the code. switchNetwork calls initializeConnection,
which calls startHealthCheck and starts one more setInterval without
ever clearing the previous one and without resetting isHealthy. At the
concrete run below, the flag is false going into the switch and stays
false after it (not reset to healthy), the original probe timer (handle
0) is still live after the switch, and a stale tick of that old timer
still writes the health flag in both directions. -/
theorem switchNetwork_keeps_old_timer_and_flag :
    ((switchNetwork (probeTick (mkConnectionManager "https://api.mainnet-beta.solana.com" "confirmed" 0)
        0 none 10) "https://api.devnet.solana.com" "confirmed").isHealthy = false ∧
     (switchNetwork (probeTick (mkConnectionManager "https://api.mainnet-beta.solana.com" "confirmed" 0)
        0 none 10) "https://api.devnet.solana.com" "confirmed").intervals = [0, 1]) ∧
    (probeTick (switchNetwork (probeTick
        (mkConnectionManager "https://api.mainnet-beta.solana.com" "confirmed" 0)
        0 none 10) "https://api.devnet.solana.com" "confirmed") 0 (some 100) 20).isHealthy = true ∧
    (probeTick (probeTick (switchNetwork (probeTick
        (mkConnectionManager "https://api.mainnet-beta.solana.com" "confirmed" 0)
        0 none 10) "https://api.devnet.solana.com" "confirmed") 0 (some 100) 20)
        0 (some 7000) 30).isHealthy = false := by
  refine ⟨⟨by decide, by decide⟩, by decide, by decide⟩

/-- A TransactionInstruction as built in transaction.js: account keys
(rendered by their base58 strings), program id, and data bytes. -/
structure TransactionInstruction where
  keys : List String
  programId : String
  data : List Nat
deriving DecidableEq, Repr

/-- A web3 Transaction object as used by TransactionManager: the
ordered instruction list plus the lifecycle fields stamped before
signing. -/
structure Transaction where
  instructions : List TransactionInstruction
  recentBlockhash : Option String
  lastValidBlockHeight : Option Nat
deriving DecidableEq, Repr

/-- transaction.add appends the instruction at the end of the list,
mutating the transaction object in place in the source. -/
def Transaction.add (tx : Transaction) (ix : TransactionInstruction) : Transaction :=
  { tx with instructions := tx.instructions ++ [ix] }

/-- The little endian bytes of a 32 bit value, as produced by viewing a
one element Uint32Array as bytes (transaction.js lines 90 and 100);
larger inputs truncate modulo 2 to the 32. -/
def u32LEBytes (n : Nat) : List Nat :=
  [n % 256, n / 256 % 256, n / 65536 % 256, n / 16777216 % 256]

def computeBudgetProgramIdStr : String := "ComputeBudget111111111111111111111111111111"

def memoProgramIdStr : String := "MemoSq4gqABAXKb96qnH8TysNcWxMyWCqXgDLGmfcHr"

def systemProgramIdStr : String := "11111111111111111111111111111111"

/-- The compute unit limit instruction appended at transaction.js lines
86 to 92 when computeUnits is not the 200000 default. -/
def computeUnitLimitInstruction (computeUnits : Nat) : TransactionInstruction :=
  ⟨[], computeBudgetProgramIdStr, 0 :: u32LEBytes computeUnits⟩

/-- The priority fee instruction appended at transaction.js lines 96 to
102 when priorityFee is positive. -/
def priorityFeeInstruction (priorityFee : Nat) : TransactionInstruction :=
  ⟨[], computeBudgetProgramIdStr, 3 :: u32LEBytes priorityFee⟩

/-- The memo instruction built at transaction.js lines 40 to 46. -/
def memoInstruction (memo : String) : TransactionInstruction :=
  ⟨[], memoProgramIdStr, memo.toUTF8.toList.map UInt8.toNat⟩

/-- The SystemProgram.transfer instruction added at transaction.js
lines 49 to 55; the wire encoding of the external library call is kept
abstract beyond the participating keys and the program id. -/
def transferInstruction (fromPubkey toPubkey : String) (lamports : Int) : TransactionInstruction :=
  ⟨[fromPubkey, toPubkey], systemProgramIdStr, [2]⟩

/-- A fresh blockhash reply from connection.getLatestBlockhash. -/
structure BlockhashReply where
  blockhash : String
  lastValidBlockHeight : Nat
deriving DecidableEq, Repr

/-- The stamping and budget augmentation prefix of the closure passed
to executeWithRetry inside executeTransaction (transaction.js lines 81
to 103), acting on whatever transaction object reaches that attempt:
stamp the fresh blockhash and expiry, then append the compute unit
instruction when computeUnits is not 200000, then append the priority
fee instruction when priorityFee is positive. -/
def stampAndAugment (computeUnits priorityFee : Nat) (bh : BlockhashReply)
    (tx : Transaction) : Transaction :=
  let tx1 := { tx with recentBlockhash := some bh.blockhash,
                       lastValidBlockHeight := some bh.lastValidBlockHeight }
  let tx2 := if computeUnits ≠ 200000 then tx1.add (computeUnitLimitInstruction computeUnits)
             else tx1
  if priorityFee > 0 then tx2.add (priorityFeeInstruction priorityFee) else tx2

/-- The transaction object as submitted on the given 1-indexed attempt
of executeTransaction. The closure captures the one mutable Transaction
built by the caller, so the object mutated by attempt k is the object
attempt k + 1 starts from; blockhashes gives the fresh blockhash fetched
on each attempt. -/
def transactionOnAttempt (computeUnits priorityFee : Nat) (blockhashes : Nat → BlockhashReply)
    (tx0 : Transaction) : Nat → Transaction
  | 0 => tx0
  | k + 1 => stampAndAugment computeUnits priorityFee (blockhashes (k + 1))
      (transactionOnAttempt computeUnits priorityFee blockhashes tx0 k)

/-- C5: the budget augmentation performed by one attempt of
executeTransaction appends, after the instructions already present,
exactly one compute unit limit instruction when computeUnits is not the
200000 default and none otherwise, then exactly one priority fee
instruction when priorityFee is positive and none when it is zero; in
particular an envelope holding caller instructions A and B with the
default computeUnits and zero priorityFee is submitted exactly as A
then B with no augmentation. -/
theorem stampAndAugment_instruction_order (computeUnits priorityFee : Nat)
    (bh : BlockhashReply) (tx : Transaction) (ixA ixB : TransactionInstruction) :
    (stampAndAugment computeUnits priorityFee bh tx).instructions =
      tx.instructions ++
        (if computeUnits ≠ 200000 then [computeUnitLimitInstruction computeUnits] else []) ++
        (if priorityFee > 0 then [priorityFeeInstruction priorityFee] else []) ∧
    (stampAndAugment 200000 0 bh ⟨[ixA, ixB], none, none⟩).instructions = [ixA, ixB] := by
  constructor
  · by_cases hc : computeUnits ≠ 200000 <;> by_cases hp : priorityFee > 0 <;>
      simp [stampAndAugment, Transaction.add, hc, hp]
  · simp [stampAndAugment, Transaction.add]

/-- C4: refuted on the code. On retry the closure re-fetches a fresh
blockhash and stamps it (that part of the claim holds), but it mutates
the one captured Transaction object, so with a non default computeUnits
the compute budget instruction is appended again on every attempt: at
the concrete run below attempt 1 submits the caller instruction plus
one compute budget instruction while attempt 2 submits the caller
instruction plus two, so the instruction sequence of attempt 2 differs
from attempt 1 instead of equalling it. -/
theorem executeTransaction_retry_accumulates :
    ((transactionOnAttempt 300000 0 (fun k => ⟨"hash" ++ toString k, 100 + k⟩)
        ⟨[transferInstruction "senderPk" "receiverPk" 5], none, none⟩ 1).recentBlockhash =
        some "hash1" ∧
     (transactionOnAttempt 300000 0 (fun k => ⟨"hash" ++ toString k, 100 + k⟩)
        ⟨[transferInstruction "senderPk" "receiverPk" 5], none, none⟩ 2).recentBlockhash =
        some "hash2") ∧
    (transactionOnAttempt 300000 0 (fun k => ⟨"hash" ++ toString k, 100 + k⟩)
        ⟨[transferInstruction "senderPk" "receiverPk" 5], none, none⟩ 1).instructions =
      [transferInstruction "senderPk" "receiverPk" 5, computeUnitLimitInstruction 300000] ∧
    (transactionOnAttempt 300000 0 (fun k => ⟨"hash" ++ toString k, 100 + k⟩)
        ⟨[transferInstruction "senderPk" "receiverPk" 5], none, none⟩ 2).instructions =
      [transferInstruction "senderPk" "receiverPk" 5, computeUnitLimitInstruction 300000,
       computeUnitLimitInstruction 300000] ∧
    ¬ (transactionOnAttempt 300000 0 (fun k => ⟨"hash" ++ toString k, 100 + k⟩)
        ⟨[transferInstruction "senderPk" "receiverPk" 5], none, none⟩ 2).instructions =
      (transactionOnAttempt 300000 0 (fun k => ⟨"hash" ++ toString k, 100 + k⟩)
        ⟨[transferInstruction "senderPk" "receiverPk" 5], none, none⟩ 1).instructions := by
  refine ⟨⟨by decide, by decide⟩, by decide, by decide, by decide⟩

/-- The value executeTransaction resolves with on success
(transaction.js lines 128 to 132). -/
structure TxSuccess where
  signature : String
  slot : Nat
deriving DecidableEq, Repr

/-- Outcome of connection.confirmTransaction on one attempt: either it
resolved, carrying the optional on chain error (already stringified)
and the slot, or confirmation polling exhausted its bound and the call
threw with the given message. -/
inductive ConfirmOutcome where
  | resolved (err : Option String) (slot : Nat)
  | timedOut (message : String)
deriving DecidableEq, Repr

/-- The confirmation tail of the executeTransaction closure
(transaction.js lines 113 to 132): a thrown confirmation timeout
propagates as is, a reported on chain error becomes a thrown plain
Error, and otherwise the closure returns the success value. -/
def settleConfirmation (signature : String) (outcome : ConfirmOutcome) :
    Except JsError TxSuccess :=
  match outcome with
  | .timedOut msg => Except.error (JsError.generic msg)
  | .resolved (some errStr) _ => Except.error (JsError.generic ("Transaction failed: " ++ errStr))
  | .resolved none slot => Except.ok ⟨signature, slot⟩

/-- The catch block of executeTransaction (transaction.js lines 134 to
140): every error is re-wrapped with code TRANSACTION_EXECUTION_ERROR. -/
def wrapTransactionExecutionError :
    Except JsError TxSuccess → Except JsError TxSuccess
  | .ok r => .ok r
  | .error e => .error (.toolkit ("Failed to execute transaction: " ++ e.message)
      "TRANSACTION_EXECUTION_ERROR" [("error", e.message)])

/-- executeTransaction from the confirmation point of view: the closure
outcome of each attempt flows through executeWithRetry and then through
the catch block wrap. -/
def executeTransactionOutcome (attemptOutcome : Nat → ConfirmOutcome) (signature : String)
    (d n : Nat) : Except JsError TxSuccess :=
  wrapTransactionExecutionError
    (executeWithRetry (fun _ => true)
      (fun i => settleConfirmation signature (attemptOutcome i)) d n).result

/-- The toolkit error code surfaced by a result, none on success or for
a plain Error. -/
def resultCode {α : Type} : Except JsError α → Option String
  | .error e => e.codeOf
  | .ok _ => none

/-- C6: refuted on the code. When confirmation polling exhausts its
bound with neither signal, confirmTransaction throws and the error is
retried and finally wrapped exactly like a remote reported on chain
error: both runs below surface a SolanaToolkitError with the same code
TRANSACTION_EXECUTION_ERROR, so the caller gets no distinct
TransactionAmbiguous condition; the two outcomes are conflated. -/
theorem ambiguous_timeout_conflated_with_rejection :
    resultCode (executeTransactionOutcome
      (fun _ => ConfirmOutcome.timedOut "TransactionExpiredTimeoutError") "sig1" 1000 3) =
      some "TRANSACTION_EXECUTION_ERROR" ∧
    resultCode (executeTransactionOutcome
      (fun _ => ConfirmOutcome.resolved (some "InstructionError") 42) "sig2" 1000 3) =
      some "TRANSACTION_EXECUTION_ERROR" ∧
    resultCode (executeTransactionOutcome
      (fun _ => ConfirmOutcome.timedOut "TransactionExpiredTimeoutError") "sig1" 1000 3) =
    resultCode (executeTransactionOutcome
      (fun _ => ConfirmOutcome.resolved (some "InstructionError") 42) "sig2" 1000 3) := by
  refine ⟨by decide, by decide, by decide⟩

/-- The error built at transaction.js lines 30 to 34 when the amount is
not positive. -/
def invalidAmountError (amount : Int) : JsError :=
  .toolkit "Transaction amount must be greater than 0" "INVALID_AMOUNT"
    [("amount", toString amount)]

/-- The catch block of sendTransaction (transaction.js lines 62 to 68):
re-wraps any error with sender, receiver and amount context under code
TRANSACTION_SEND_ERROR. -/
def transactionSendError (sender receiver : String) (amount : Int) (inner : JsError) : JsError :=
  .toolkit ("Failed to send transaction: " ++ inner.message) "TRANSACTION_SEND_ERROR"
    [("sender", sender), ("receiver", receiver), ("amount", toString amount),
     ("error", inner.message)]

/-- TransactionManager.sendTransaction (transaction.js lines 20 to 69):
validate the amount, build the memo and transfer instructions, then
hand the built transaction to executeTransaction (abstracted here as
the execute continuation, the only consumer of the network); any thrown
error is re-wrapped by the catch block. -/
def sendTransaction (sender receiver : String) (amount : Int) (memo : String)
    (execute : Transaction → Except JsError TxSuccess) : Except JsError TxSuccess :=
  let body : Except JsError TxSuccess :=
    if amount ≤ 0 then Except.error (invalidAmountError amount)
    else
      let tx : Transaction := ⟨[], none, none⟩
      let tx := if memo ≠ "" then tx.add (memoInstruction memo) else tx
      let tx := tx.add (transferInstruction sender receiver amount)
      execute tx
  match body with
  | .ok r => .ok r
  | .error e => .error (transactionSendError sender receiver amount e)

/-- C9: for any amount at most 0, sendTransaction raises the
INVALID_AMOUNT condition re-wrapped as TRANSACTION_SEND_ERROR with
sender, receiver and amount context, and the outcome is the same
whatever the executor and network would have answered, so no transfer
instruction is built, no retry executor runs and the network is never
contacted. -/
theorem sendTransaction_invalid_amount_guard (sender receiver memo : String) (amount : Int)
    (execute execute' : Transaction → Except JsError TxSuccess) (h : amount ≤ 0) :
    sendTransaction sender receiver amount memo execute =
      Except.error (transactionSendError sender receiver amount (invalidAmountError amount)) ∧
    sendTransaction sender receiver amount memo execute =
      sendTransaction sender receiver amount memo execute' := by
  constructor <;> simp [sendTransaction, if_pos h]

/-- Witness for C9 at amount 0 and amount -5, with executors that would
have succeeded. -/
theorem sendTransaction_invalid_amount_guard_witness :
    (sendTransaction "senderPk" "receiverPk" 0 ""
        (fun _ => Except.ok ⟨"sig", 1⟩) =
      Except.error (transactionSendError "senderPk" "receiverPk" 0 (invalidAmountError 0)) ∧
     sendTransaction "senderPk" "receiverPk" 0 ""
        (fun _ => Except.ok ⟨"sig", 1⟩) =
      sendTransaction "senderPk" "receiverPk" 0 ""
        (fun _ => Except.error (JsError.generic "network down"))) ∧
    (sendTransaction "senderPk" "receiverPk" (-5) "note"
        (fun _ => Except.ok ⟨"sig", 1⟩) =
      Except.error (transactionSendError "senderPk" "receiverPk" (-5) (invalidAmountError (-5)))) :=
  ⟨sendTransaction_invalid_amount_guard "senderPk" "receiverPk" "" 0
      (fun _ => Except.ok ⟨"sig", 1⟩)
      (fun _ => Except.error (JsError.generic "network down")) (by decide),
   (sendTransaction_invalid_amount_guard "senderPk" "receiverPk" "note" (-5)
      (fun _ => Except.ok ⟨"sig", 1⟩)
      (fun _ => Except.ok ⟨"sig", 1⟩) (by decide)).1⟩

/-- One result entry of batchTransactions (transaction.js lines 350 to
354): success entries carry the result, failure entries the error
message. -/
structure BatchEntry where
  index : Nat
  success : Bool
  result : Option TxSuccess
  error : Option String
deriving DecidableEq, Repr

/-- The entry pushed for position i given the executeTransaction
outcome of that transaction. -/
def batchEntry (i : Nat) (r : Except JsError TxSuccess) : BatchEntry :=
  match r with
  | .ok res => ⟨i, true, some res, none⟩
  | .error e => ⟨i, false, none, some e.message⟩

/-- The aggregate value returned by batchTransactions (transaction.js
lines 357 to 362). -/
structure BatchResult where
  total : Nat
  successful : Nat
  failed : Nat
  results : List BatchEntry
deriving DecidableEq, Repr

/-- The loop of batchTransactions (transaction.js lines 347 to 355):
process the transactions in order, catching each failure in its own
entry and continuing with the next index. -/
def batchLoop (execute : Transaction → Except JsError TxSuccess) :
    List Transaction → Nat → List BatchEntry
  | [], _ => []
  | tx :: rest, i => batchEntry i (execute tx) :: batchLoop execute rest (i + 1)

/-- TransactionManager.batchTransactions (transaction.js lines 343 to
370). -/
def batchTransactions (txs : List Transaction)
    (execute : Transaction → Except JsError TxSuccess) : BatchResult :=
  let results := batchLoop execute txs 0
  ⟨txs.length,
   (results.filter (fun r => r.success)).length,
   (results.filter (fun r => !r.success)).length,
   results⟩

theorem batchLoop_length (execute : Transaction → Except JsError TxSuccess) :
    ∀ (txs : List Transaction) (i : Nat), (batchLoop execute txs i).length = txs.length := by
  intro txs
  induction txs with
  | nil => intro i; rfl
  | cons tx rest ih => intro i; simp [batchLoop, ih]

theorem batchLoop_getD (execute : Transaction → Except JsError TxSuccess) :
    ∀ (txs : List Transaction) (i j : Nat), j < txs.length →
      (batchLoop execute txs i).getD j (batchEntry 0 (Except.error (JsError.generic ""))) =
        batchEntry (i + j) (execute (txs.getD j ⟨[], none, none⟩)) := by
  intro txs
  induction txs with
  | nil => intro i j hj; simp at hj
  | cons tx rest ih =>
      intro i j hj
      cases j with
      | zero => simp [batchLoop]
      | succ j =>
          simp only [batchLoop, List.getD_cons_succ]
          have hlt : j < rest.length := by simpa using hj
          rw [ih (i + 1) j hlt]
          congr 1
          omega

theorem length_filter_pos_add_neg {β : Type} (p : β → Bool) :
    ∀ l : List β, (l.filter p).length + (l.filter (fun x => !p x)).length = l.length := by
  intro l
  induction l with
  | nil => rfl
  | cons x rest ih =>
      cases hx : p x <;> simp [List.filter_cons, hx, ← ih] <;> omega

/-- C10: batchTransactions returns one result entry per input in index
order, each entry determined solely by the outcome of its own
transaction (a failure is recorded as success false with the error
message and aborts nothing, later entries being produced all the same),
and the returned counts satisfy total equal to the input length and to
successful plus failed. -/
theorem batchTransactions_aggregation (txs : List Transaction)
    (execute : Transaction → Except JsError TxSuccess) :
    (batchTransactions txs execute).results.length = txs.length ∧
    (∀ j, j < txs.length →
      (batchTransactions txs execute).results.getD j
          (batchEntry 0 (Except.error (JsError.generic ""))) =
        batchEntry j (execute (txs.getD j ⟨[], none, none⟩))) ∧
    (batchTransactions txs execute).total = txs.length ∧
    (batchTransactions txs execute).successful + (batchTransactions txs execute).failed =
      (batchTransactions txs execute).total := by
  refine ⟨?_, ?_, rfl, ?_⟩
  · simpa [batchTransactions] using batchLoop_length execute txs 0
  · intro j hj
    simpa [batchTransactions] using batchLoop_getD execute txs 0 j hj
  · have h := length_filter_pos_add_neg (fun r : BatchEntry => r.success) (batchLoop execute txs 0)
    simpa [batchTransactions, batchLoop_length execute txs 0] using h

/-- Witness for C10 on a two element batch whose first transaction
fails and whose second succeeds. -/
theorem batchTransactions_aggregation_witness :
    (batchTransactions [⟨[], none, none⟩, ⟨[transferInstruction "a" "b" 1], none, none⟩]
        (fun t => if t.instructions.length = 0 then Except.error (JsError.generic "boom")
          else Except.ok ⟨"sig", 3⟩)).results.length = 2 ∧
    (batchTransactions [⟨[], none, none⟩, ⟨[transferInstruction "a" "b" 1], none, none⟩]
        (fun t => if t.instructions.length = 0 then Except.error (JsError.generic "boom")
          else Except.ok ⟨"sig", 3⟩)).results.getD 0
        (batchEntry 0 (Except.error (JsError.generic ""))) =
      batchEntry 0 (Except.error (JsError.generic "boom")) ∧
    (batchTransactions [⟨[], none, none⟩, ⟨[transferInstruction "a" "b" 1], none, none⟩]
        (fun t => if t.instructions.length = 0 then Except.error (JsError.generic "boom")
          else Except.ok ⟨"sig", 3⟩)).results.getD 1
        (batchEntry 0 (Except.error (JsError.generic ""))) =
      batchEntry 1 (Except.ok ⟨"sig", 3⟩) ∧
    (batchTransactions [⟨[], none, none⟩, ⟨[transferInstruction "a" "b" 1], none, none⟩]
        (fun t => if t.instructions.length = 0 then Except.error (JsError.generic "boom")
          else Except.ok ⟨"sig", 3⟩)).successful +
      (batchTransactions [⟨[], none, none⟩, ⟨[transferInstruction "a" "b" 1], none, none⟩]
        (fun t => if t.instructions.length = 0 then Except.error (JsError.generic "boom")
          else Except.ok ⟨"sig", 3⟩)).failed = 2 :=
  by
  have h := batchTransactions_aggregation
    [⟨[], none, none⟩, ⟨[transferInstruction "a" "b" 1], none, none⟩]
    (fun t => if t.instructions.length = 0 then Except.error (JsError.generic "boom")
      else Except.ok ⟨"sig", 3⟩)
  refine ⟨h.1, ?_, ?_, by decide⟩
  · have h0 := h.2.1 0 (by decide)
    simpa using h0
  · have h1 := h.2.1 1 (by decide)
    simpa using h1

end SolanaToolkit
